import Mathlib

/-!
Verification development for the seaguest/cache repository: a two-tier
(in-process memory + Redis) distributed object cache.  The definitions below
are a shallow embedding of the Go source.  Pure functions of the source are
translated to Lean functions; the stateful coordinator paths (`getObject`,
`setObject`, `resetObject`, `Delete`, the pub/sub subscriber step) are
translated to explicit state-passing functions over a `World` record that
holds the memory tier, the log of published broadcast messages, the log of
error-sink (`OnError`) invocations and a loader-invocation counter.
External collaborators that the source only calls (the Redis network I/O,
the loader callback, JSON marshalling) enter as explicit outcome parameters,
so every control-flow branch of the source is represented.

Times are Go nanosecond instants (`Int`); Go `time.Duration` is an `Int`
count of nanoseconds; `Time.UnixMilli` divides nanoseconds by 10^6.
Go's integer `/` and `%` truncate toward zero, which is `Int.tdiv` /
`Int.tmod`.
-/

/-- User objects (`interface{}` values); Go `nil` is `none`. -/
abbrev Obj := Nat

/-- Errors of the cache package.  `withStack` is `errors.WithStack` from
github.com/pkg/errors: a wrapper preserving the wrapped error's identity.
`msgErr s` is `errors.New(s)` (in the panic path, `s = fmt.Sprint(r)`). -/
inductive Err where
  | illegalTTL
  | redisFail (code : Nat)
  | loaderFail (code : Nat)
  | msgErr (msg : String)
  | withStack (e : Err)
deriving DecidableEq, Repr

/-- `errors.Cause`-style unwrapping: identity of an error through
`errors.WithStack` wrappers. -/
def Err.cause : Err → Err
  | .withStack e => e.cause
  | e => e

/-- Error message text; `withStack` preserves the wrapped message. -/
def Err.message : Err → String
  | .illegalTTL => "illegal ttl, must be in whole numbers of seconds, no fractions"
  | .redisFail _ => "redis error"
  | .loaderFail _ => "loader error"
  | .msgErr s => s
  | .withStack e => e.message

/-- Go `time.Time.UnixMilli` on an instant given in nanoseconds since the
epoch (division truncates; instants of interest are after 1970). -/
def unixMilli (tNanos : Int) : Int := Int.tdiv tNanos 1000000

/-- Nanoseconds in one second, as in Go `time.Second`. -/
def nsPerSecond : Int := 1000000000

/-- Go `time.Duration.Truncate(time.Second)`: `d - d % time.Second`,
rounding toward zero to a multiple of one second. -/
def truncateSec (d : Int) : Int := d - Int.tmod d nsPerSecond

/-- The illegal-TTL guard of `setObject`/`getObject` (src/cache.go:132,198):
`ttl > ttl.Truncate(time.Second)`. -/
def illegalTTLCheck (ttl : Int) : Bool := decide (truncateSec ttl < ttl)

/-- The cache envelope (src/item.go:11-15).  `Object` is the user value
(`none` = Go nil), `Size` the payload byte length, `ExpireAt` an absolute
expiration instant in milliseconds, `0` meaning "never expires". -/
structure Item where
  Object : Option Obj
  Size : Nat
  ExpireAt : Int
deriving DecidableEq, Repr

/-- `newItem` (src/item.go:17-27): `ExpireAt` is set to
`time.Now().Add(ttl).UnixMilli()` only when `ttl > 0`, else left `0`. -/
def newItem (v : Option Obj) (ttl : Int) (nowNs : Int) : Item :=
  { Object := v
    Size := 0
    ExpireAt := if 0 < ttl then unixMilli (nowNs + ttl) else 0 }

/-- `Item.Expired` (src/item.go:29-31):
`it.ExpireAt != 0 && it.ExpireAt < time.Now().UnixMilli()`. -/
def Item.Expired (it : Item) (nowNs : Int) : Bool :=
  decide (it.ExpireAt ≠ 0) && decide (it.ExpireAt < unixMilli nowNs)

/-- Broadcast action kind (src/cache.go:398-403): `cacheSet` or `cacheDelete`. -/
inductive CacheAction where
  | set
  | del
deriving DecidableEq, Repr

/-- Update policy (`UpdateCachePolicy`): the `set` branch of `notifyAll`
publishes only when the policy is not `UpdatePolicyNoBroadcast`
(src/cache.go:493-496).  `unset` is the zero value. -/
inductive UpdatePolicy where
  | unset
  | broadcast
  | noBroadcast
deriving DecidableEq, Repr

/-- Get policy (src/option.go:10-15): `GetPolicyReturnExpired` or
`GetPolicyReloadOnExpiry` (modelled after zero-value resolution in `New`). -/
inductive GetPolicy where
  | returnExpired
  | reloadOnExpiry
deriving DecidableEq, Repr

/-- The broadcast message content relevant to the model (`actionRequest`,
src/cache.go:415-433, minus the marshalled payload). -/
structure Broadcast where
  action : CacheAction
  typeName : String
  key : String
  updatePolicy : UpdatePolicy
deriving DecidableEq, Repr

/-- Memory tier lookup (`memCache.get`, src/mem_cache.go items map). -/
def memGet (m : List (String × Item)) (k : String) : Option Item :=
  match m.find? (fun p => p.1 == k) with
  | some p => some p.2
  | none => none

/-- Memory tier store (`memCache.set`): overwrites the entry for `k`. -/
def memSet (m : List (String × Item)) (k : String) (it : Item) : List (String × Item) :=
  (k, it) :: m.filter (fun p => p.1 != k)

/-- Memory tier removal (`memCache.delete`). -/
def memDelete (m : List (String × Item)) (k : String) : List (String × Item) :=
  m.filter (fun p => p.1 != k)

/-- Observable state of one cache process: the memory tier, the log of
broadcasts actually PUBLISHed, the log of `OnError` sink invocations, and
how many times the caller-supplied loader `f` has been invoked. -/
structure World where
  mem : List (String × Item)
  published : List Broadcast
  errSink : List Err
  loaderCalls : Nat
deriving DecidableEq, Repr

/-- Outcome of the marshalling/PUBLISH sequence inside `notifyAll`
(src/cache.go:498-518); failures go to the error sink, never to callers. -/
inductive PubOutcome where
  | ok
  | marshalObjFail (e : Err)
  | marshalMsgFail (e : Err)
  | pubFail (e : Err)
deriving DecidableEq, Repr

/-- `notifyAll` (src/cache.go:492-519): skip entirely when the policy is
`NoBroadcast` and the action is `cacheSet`; otherwise marshal and PUBLISH,
reporting any failure to `OnError` and publishing nothing. -/
def notifyAll (w : World) (ar : Broadcast) (out : PubOutcome) : World :=
  if ar.updatePolicy == .noBroadcast && ar.action == .set then w
  else
    match out with
    | .ok => { w with published := w.published ++ [ar] }
    | .marshalObjFail e => { w with errSink := w.errSink ++ [Err.withStack e] }
    | .marshalMsgFail e => { w with errSink := w.errSink ++ [Err.withStack e] }
    | .pubFail e => { w with errSink := w.errSink ++ [Err.withStack e] }

/-- What one invocation of the caller-supplied loader `f` does: return a
value, return an error, or panic (with an error value or any other value,
which Go's `fmt.Sprint` renders as a string). -/
inductive LoadResult where
  | ok (o : Option Obj)
  | err (e : Err)
  | panicErr (pe : Err)
  | panicStr (s : String)
deriving DecidableEq, Repr

/-- An `(*Item, error)` pair as returned by `resetObject` and by the
single-flight closures: exactly one of the two is meaningful. -/
inductive ItemResult where
  | ok (it : Item)
  | error (e : Err)
deriving DecidableEq, Repr

/-- External outcomes consumed by one `resetObject` run: the loader result
and the result of `c.rds.set` (the Item it built, or a network error). -/
structure ResetOracle where
  load : LoadResult
  rdsSet : ItemResult
deriving DecidableEq, Repr

/-- Result of `resetObject`: the final world and `(*Item, error)`. -/
structure ResetResult where
  w : World
  res : ItemResult
deriving DecidableEq, Repr

/-- The body of `resetObject` (src/cache.go:275-328), i.e. the closure run
under the `nk+"_reset"` single-flight.  The loader is invoked (counted);
on a loader error that error is returned as-is with no memory write, no
redis write and no broadcast; on a loader panic the recover block
(src/cache.go:286-296) turns an error panic value into
`errors.WithStack(v)` and any other panic value into
`errors.New(fmt.Sprint(r))`, reports it to `OnError`, and returns it; on
success the memory tier is set first, then redis, then `notifyAll`. -/
def resetObjectBody (w : World) (key : String) (ttl : Int) (orc : ResetOracle)
    (pub : PubOutcome) (up : UpdatePolicy) (nowNs : Int) (typeName : String) :
    ResetResult :=
  let w1 : World := { w with loaderCalls := w.loaderCalls + 1 }
  match orc.load with
  | .err e => ⟨w1, .error e⟩
  | .panicErr pe =>
      let e := Err.withStack pe
      ⟨{ w1 with errSink := w1.errSink ++ [e] }, .error e⟩
  | .panicStr s =>
      let e := Err.msgErr s
      ⟨{ w1 with errSink := w1.errSink ++ [e] }, .error e⟩
  | .ok o =>
      let w2 : World := { w1 with mem := memSet w1.mem key (newItem o ttl nowNs) }
      match orc.rdsSet with
      | .error e => ⟨w2, .error e⟩
      | .ok it =>
          ⟨notifyAll w2 ⟨.set, typeName, key, up⟩ pub, .ok it⟩

/-- Outcome of `c.rds.get(namespacedKey, obj)` seen by the read path
(src/cache.go:252): a network/decoding error, a decoded Item, or absence
(Redis nil is reported as absence, not error). -/
inductive RedisGetResult where
  | fail (e : Err)
  | found (it : Item)
  | absent
deriving DecidableEq, Repr

/-- Result of the `nk+"_get"` single-flight closure: the world after the
closure, the `(*Item, error)` it returns, the value of the captured
`expired` flag after it, and whether `resetObject` was invoked. -/
structure FlightOut where
  w : World
  res : ItemResult
  expired : Bool
  resetCalled : Bool
deriving DecidableEq, Repr

/-- The closure run under the `nk+"_get"` single-flight
(src/cache.go:250-266): query the redis tier; on error wrap and return it;
if an Item was found and is expired, set the `expired` flag and return it
without touching the memory tier; if found and fresh, write it through to
the memory tier and return it; if absent, delegate to `resetObject`. -/
def getFlightBody (w : World) (key : String) (ttl : Int) (nowNs : Int)
    (rds : RedisGetResult) (reset : ResetOracle) (pub : PubOutcome)
    (up : UpdatePolicy) (typeName : String) : FlightOut :=
  match rds with
  | .fail e => ⟨w, .error (Err.withStack e), false, false⟩
  | .found v =>
      if v.Expired nowNs then ⟨w, .ok v, true, false⟩
      else ⟨{ w with mem := memSet w.mem key v }, .ok v, false, false⟩
  | .absent =>
      let r := resetObjectBody w key ttl reset pub up nowNs typeName
      ⟨r.w, r.res, false, true⟩

/-- `deepcopy.Copy` followed by the reflect-set in `cache.copy`
(src/cache.go:369-387): deep-copying Go `nil` yields an invalid
`reflect.Value`, in which case the destination is left unchanged; the
function returns a nil error either way (the recover block only matters
for panicking copies, which the model's values never produce). -/
def cacheCopy (src : Option Obj) (dst : Obj) : Obj × Option Err :=
  match src with
  | none => (dst, none)
  | some v => (v, none)

/-- External outcomes consumed by one `getObject` run. -/
structure GetOracle where
  rdsGet : RedisGetResult
  reset : ResetOracle
  pub : PubOutcome
deriving DecidableEq, Repr

/-- Result of one `getObject` run: the final world, the returned error
(`none` = success), the caller's destination `obj` after the call, whether
an asynchronous reload goroutine was scheduled, and whether `resetObject`
ran during the call. -/
structure GetResult where
  w : World
  ret : Option Err
  out : Obj
  asyncScheduled : Bool
  resetCalled : Bool
deriving DecidableEq, Repr

/-- The deferred block of `getObject` (src/cache.go:216-238), run on every
exit after the early TTL check: under `GetPolicyReloadOnExpiry` an expired
hit is reloaded synchronously (reassigning both `it` and `err`); then, on
a nil error, the Item's object is deep-copied into the caller's `obj`;
finally, if expired under any other policy, an asynchronous reload is
scheduled (its effects happen after `getObject` returns and are not part
of this run's world). -/
def finishGet (w : World) (key : String) (ttl : Int) (nowNs : Int)
    (getPolicy : GetPolicy) (up : UpdatePolicy) (out0 : Obj)
    (reset : ResetOracle) (pub : PubOutcome) (typeName : String)
    (it : Option Item) (err : Option Err) (expired : Bool)
    (resetCalled : Bool) : GetResult :=
  let sync := expired && (getPolicy == GetPolicy.reloadOnExpiry)
  let step :=
    if sync then
      let r := resetObjectBody w key ttl reset pub up nowNs typeName
      match r.res with
      | .ok v => (r.w, some v, (none : Option Err), true)
      | .error e => (r.w, (none : Option Item), some e, true)
    else (w, it, err, resetCalled)
  let w1 := step.1
  let it1 := step.2.1
  let err1 := step.2.2.1
  let called := step.2.2.2
  let copied :=
    match err1 with
    | some e => (out0, some e)
    | none =>
        match it1 with
        | some item => cacheCopy item.Object out0
        | none => (out0, none)
  let asyncScheduled := expired && !(getPolicy == GetPolicy.reloadOnExpiry)
  ⟨w1, copied.2, copied.1, asyncScheduled, called⟩

/-- `getObject` (src/cache.go:197-272).  The TTL guard runs first and, when
it fires, nothing else happens.  Then the memory tier is consulted; on a
hit the deferred block finishes the call, and on a miss the `nk+"_get"`
single-flight closure consults the redis tier and possibly `resetObject`.
Type registration and metric observation, which write no cache state, are
not modelled. -/
def getObject (w : World) (key : String) (ttl : Int) (nowNs : Int)
    (getPolicy : GetPolicy) (up : UpdatePolicy) (out0 : Obj)
    (orc : GetOracle) (typeName : String) : GetResult :=
  if illegalTTLCheck ttl then
    ⟨w, some (Err.withStack Err.illegalTTL), out0, false, false⟩
  else
    match memGet w.mem key with
    | some it =>
        finishGet w key ttl nowNs getPolicy up out0 orc.reset orc.pub typeName
          (some it) none (it.Expired nowNs) false
    | none =>
        let fo := getFlightBody w key ttl nowNs orc.rdsGet orc.reset orc.pub up typeName
        match fo.res with
        | .error e =>
            finishGet fo.w key ttl nowNs getPolicy up out0 orc.reset orc.pub typeName
              none (some e) fo.expired fo.resetCalled
        | .ok v =>
            finishGet fo.w key ttl nowNs getPolicy up out0 orc.reset orc.pub typeName
              (some v) none fo.expired fo.resetCalled

/-- `setObject` (src/cache.go:131-169): the same TTL guard, then (under the
`nk+"_set"` single-flight) the memory tier is set first, then the redis
tier; a redis error is wrapped and returned; on success `notifyAll`
broadcasts the set (subject to the update policy). -/
def setObject (w : World) (key : String) (obj : Option Obj) (ttl : Int)
    (nowNs : Int) (up : UpdatePolicy) (rdsSet : ItemResult)
    (pub : PubOutcome) (typeName : String) : World × Option Err :=
  if illegalTTLCheck ttl then (w, some (Err.withStack Err.illegalTTL))
  else
    let w1 : World := { w with mem := memSet w.mem key (newItem obj ttl nowNs) }
    match rdsSet with
    | .error e => (w1, some (Err.withStack e))
    | .ok _ => (notifyAll w1 ⟨.set, typeName, key, up⟩ pub, none)

/-- `Delete` (src/cache.go:341-358): delete the key on the redis tier; on a
redis error return it (wrapped) without publishing anything; on success
publish a `cacheDelete` broadcast via `notifyAll` (the actionRequest's
update policy field is left at its zero value).  `Delete` never touches
the local memory tier itself. -/
def deleteObject (w : World) (key : String) (rdsDel : Option Err)
    (pub : PubOutcome) : World × Option Err :=
  match rdsDel with
  | some e => (w, some (Err.withStack e))
  | none => (notifyAll w ⟨.del, "", key, .unset⟩ pub, none)

/-- A type-registry entry (`objectType`, src/cache.go:406-412): the
prototype used to allocate decode targets, and the TTL first registered
for the type. -/
structure TypeReg where
  proto : Option Obj
  ttl : Int
deriving DecidableEq, Repr

/-- A received broadcast message after the envelope `unmarshal(v.Data, &ar)`
succeeded (src/cache.go:455-459). -/
structure ActionMsg where
  action : CacheAction
  typeName : String
  key : String
  payloadLen : Nat
deriving DecidableEq, Repr

/-- Outcome of `unmarshal(ar.Payload, obj)` for a registered type. -/
inductive DecodeOutcome where
  | ok (o : Option Obj)
  | fail (e : Err)
deriving DecidableEq, Repr

/-- Control transferred back to the subscriber receive loop after one
message: `next` for Go `continue` / falling through to the next
`psc.Receive()`, `stop` for leaving the loop (`return`). -/
inductive LoopCtl where
  | next
  | stop
deriving DecidableEq, Repr

/-- One `redis.Message` step of the subscriber loop `watch`
(src/cache.go:452-479).  On a `cacheSet` message: an unregistered
`TypeName` is dropped with `continue` (no memory write, no `OnError`); a
payload decode failure goes to `OnError` and the loop continues; otherwise
the object is wrapped in a fresh Item carrying the registered TTL and the
payload size, and stored.  On a `cacheDelete` message the key is removed
from the memory tier. -/
def watchStep (types : List (String × TypeReg)) (w : World) (msg : ActionMsg)
    (decode : DecodeOutcome) (nowNs : Int) : World × LoopCtl :=
  match msg.action with
  | .set =>
      match types.find? (fun p => p.1 == msg.typeName) with
      | none => (w, .next)
      | some reg =>
          match decode with
          | .fail e => ({ w with errSink := w.errSink ++ [Err.withStack e] }, .next)
          | .ok obj =>
              let it := { newItem obj reg.2.ttl nowNs with Size := msg.payloadLen }
              ({ w with mem := memSet w.mem msg.key it }, .next)
  | .del => ({ w with mem := memDelete w.mem msg.key }, .next)

/-- One `redis.Message` step of the older subscriber loop `watch` in
src/unnamed/part_020:393-419.  It differs from the current one: on a
`cacheSet` message whose `TypeName` is unregistered, and on a payload
decode failure, the function executes `return`, terminating the whole
subscriber goroutine instead of continuing with the next message; the
stored Item's `Size` is not set. -/
def watchStepV020 (types : List (String × TypeReg)) (w : World)
    (msg : ActionMsg) (decode : DecodeOutcome) (nowNs : Int) :
    World × LoopCtl :=
  match msg.action with
  | .set =>
      match types.find? (fun p => p.1 == msg.typeName) with
      | none => (w, .stop)
      | some reg =>
          match decode with
          | .fail e => ({ w with errSink := w.errSink ++ [Err.withStack e] }, .stop)
          | .ok obj =>
              ({ w with mem := memSet w.mem msg.key (newItem obj reg.2.ttl nowNs) }, .next)
  | .del => ({ w with mem := memDelete w.mem msg.key }, .next)

/-- A Redis write command as issued by the redis tier. -/
inductive RedisCmd where
  | plainSet (key value : String)
  | setex (key : String) (ttlSeconds : Int) (value : String)
deriving DecidableEq, Repr

/-- `setString` (src/redis.go:118-131): after the connection-health check,
issue `SET key value` when the ttl argument is `0`, else
`SETEX key ttl value`. -/
def setString (key value : String) (ttl : Int) (connErr : Option Err) :
    Option Err × Option RedisCmd :=
  match connErr with
  | some e => (some e, none)
  | none =>
      if ttl == 0 then (none, some (RedisCmd.plainSet key value))
      else (none, some (RedisCmd.setex key ttl value))

/-- Modelled from the spec: the TTL amplification of the redis tier's
`set` (the `redisCache` implementation file is not under src; only its
callers and `setString` are).  Spec 4.3: "redis_ttl_seconds :=
(mem_ttl / 1s) × RedisTTLFactor", with Go's truncating integer division
of durations. -/
def redisTTLSeconds (memTTL : Int) (factor : Int) : Int :=
  Int.tdiv memTTL nsPerSecond * factor

/-- Modelled from the spec: the write step of the redis tier's `set`
(missing from src), which passes the amplified TTL to `setString`
(src/redis.go:118-131); spec 4.3: "If mem_ttl = 0, the redis key is
written with no expiry (SET), otherwise SETEX". -/
def redisCacheSet (key value : String) (memTTL : Int) (factor : Int)
    (connErr : Option Err) : Option Err × Option RedisCmd :=
  setString key value (redisTTLSeconds memTTL factor) connErr

/-- Claim C1 (counterexample).  The claim demands failure with `IllegalTTL`
for every ttl that is not both strictly positive and integral; but
`ttl = 0` is not strictly positive and both `getObject` and `setObject`
accept it and complete without error (the guard `ttl > ttl.Truncate(1s)`
does not fire at 0). -/
theorem C1_counterexample :
    ¬ (0 < (0 : Int)) ∧
    (getObject ⟨[("default:k", ⟨some 5, 0, 0⟩)], [], [], 0⟩ "default:k" 0 1000000000
        GetPolicy.returnExpired UpdatePolicy.unset 99
        ⟨RedisGetResult.absent, ⟨LoadResult.ok (some 1), ItemResult.ok ⟨some 1, 0, 0⟩⟩,
         PubOutcome.ok⟩ "T").ret = none ∧
    (setObject ⟨[], [], [], 0⟩ "default:k" (some 5) 0 1000000000 UpdatePolicy.unset
        (ItemResult.ok ⟨some 5, 0, 0⟩) PubOutcome.ok "T").2 = none := by
  decide

/-- Claim C1 (amended): a call to `getObject` or `setObject` whose ttl is
strictly positive and not an integral number of seconds fails with the
(stack-wrapped) `IllegalTTL` error, leaving the whole world — memory
tier, published broadcasts, error sink, loader count — and the caller's
destination untouched; `ttl = 0` and negative ttls pass the guard (see
the counterexample). -/
theorem C1_theorem (w : World) (key : String) (ttl nowNs : Int)
    (gp : GetPolicy) (up : UpdatePolicy) (out0 : Obj) (orc : GetOracle)
    (tn : String) (obj : Option Obj) (rs : ItemResult) (pub : PubOutcome)
    (h1 : 0 < ttl) (h2 : Int.tmod ttl nsPerSecond ≠ 0) :
    illegalTTLCheck ttl = true ∧
    getObject w key ttl nowNs gp up out0 orc tn =
      ⟨w, some (Err.withStack Err.illegalTTL), out0, false, false⟩ ∧
    setObject w key obj ttl nowNs up rs pub tn =
      (w, some (Err.withStack Err.illegalTTL)) := by
  have hm := Int.tmod_nonneg nsPerSecond (le_of_lt h1)
  have hc : illegalTTLCheck ttl = true := by
    simp only [illegalTTLCheck, truncateSec, decide_eq_true_eq]
    omega
  exact ⟨hc, by simp [getObject, hc], by simp [setObject, hc]⟩

/-- Witness for C1_theorem at ttl = 1.5 s. -/
theorem C1_theorem_witness :
    (0 < (1500000000 : Int)) ∧ Int.tmod (1500000000 : Int) nsPerSecond ≠ 0 ∧
    (illegalTTLCheck 1500000000 = true ∧
     getObject ⟨[], [], [], 0⟩ "default:k" 1500000000 0 GetPolicy.returnExpired
        UpdatePolicy.unset 7
        ⟨RedisGetResult.absent, ⟨LoadResult.ok (some 1), ItemResult.ok ⟨some 1, 0, 0⟩⟩,
         PubOutcome.ok⟩ "T" =
       ⟨⟨[], [], [], 0⟩, some (Err.withStack Err.illegalTTL), 7, false, false⟩ ∧
     setObject ⟨[], [], [], 0⟩ "default:k" (some 5) 1500000000 0 UpdatePolicy.unset
        (ItemResult.ok ⟨some 5, 0, 0⟩) PubOutcome.ok "T" =
       (⟨[], [], [], 0⟩, some (Err.withStack Err.illegalTTL))) :=
  ⟨by decide, by decide,
   C1_theorem ⟨[], [], [], 0⟩ "default:k" 1500000000 0 GetPolicy.returnExpired
     UpdatePolicy.unset 7
     ⟨RedisGetResult.absent, ⟨LoadResult.ok (some 1), ItemResult.ok ⟨some 1, 0, 0⟩⟩,
      PubOutcome.ok⟩ "T" (some 5) (ItemResult.ok ⟨some 5, 0, 0⟩) PubOutcome.ok
     (by decide) (by decide)⟩

/-- Claim C2: when the loader returns an error during a `getObject` reload,
`resetObject` returns exactly that error with no memory-tier write, no
redis write, no broadcast and no error-sink call (only the
loader-invocation count moves), and on the all-miss synchronous path
`getObject` hands exactly that error to its caller with the caller's
destination untouched. -/
theorem C2_theorem (w : World) (key : String) (ttl nowNs : Int) (e : Err)
    (rdsSet : ItemResult) (pub : PubOutcome) (up : UpdatePolicy)
    (gp : GetPolicy) (out0 : Obj) (tn : String)
    (hlegal : illegalTTLCheck ttl = false)
    (hmiss : memGet w.mem key = none) :
    resetObjectBody w key ttl ⟨LoadResult.err e, rdsSet⟩ pub up nowNs tn =
      ⟨{ w with loaderCalls := w.loaderCalls + 1 }, ItemResult.error e⟩ ∧
    getObject w key ttl nowNs gp up out0
        ⟨RedisGetResult.absent, ⟨LoadResult.err e, rdsSet⟩, pub⟩ tn =
      ⟨{ w with loaderCalls := w.loaderCalls + 1 }, some e, out0, false, true⟩ := by
  refine ⟨rfl, ?_⟩
  simp [getObject, hlegal, hmiss, getFlightBody, resetObjectBody, finishGet]

/-- Witness for C2_theorem on an empty world. -/
theorem C2_theorem_witness :
    (illegalTTLCheck 1000000000 = false ∧ memGet ([] : List (String × Item)) "k" = none) ∧
    (resetObjectBody ⟨[], [], [], 0⟩ "k" 1000000000
        ⟨LoadResult.err (Err.loaderFail 7), ItemResult.ok ⟨none, 0, 0⟩⟩
        PubOutcome.ok UpdatePolicy.unset 0 "T" =
      ⟨⟨[], [], [], 1⟩, ItemResult.error (Err.loaderFail 7)⟩ ∧
     getObject ⟨[], [], [], 0⟩ "k" 1000000000 0 GetPolicy.returnExpired UpdatePolicy.unset 3
        ⟨RedisGetResult.absent, ⟨LoadResult.err (Err.loaderFail 7), ItemResult.ok ⟨none, 0, 0⟩⟩,
         PubOutcome.ok⟩ "T" =
      ⟨⟨[], [], [], 1⟩, some (Err.loaderFail 7), 3, false, true⟩) :=
  ⟨⟨by decide, by decide⟩,
   C2_theorem ⟨[], [], [], 0⟩ "k" 1000000000 0 (Err.loaderFail 7)
     (ItemResult.ok ⟨none, 0, 0⟩) PubOutcome.ok UpdatePolicy.unset
     GetPolicy.returnExpired 3 "T" (by decide) (by decide)⟩

/-- Every run of the `resetObject` closure invokes the loader exactly once,
whatever the loader, redis and publish outcomes are. -/
theorem resetObjectBody_loaderCalls (w : World) (key : String) (ttl : Int)
    (orc : ResetOracle) (pub : PubOutcome) (up : UpdatePolicy) (nowNs : Int)
    (tn : String) :
    (resetObjectBody w key ttl orc pub up nowNs tn).w.loaderCalls = w.loaderCalls + 1 := by
  cases hl : orc.load <;> cases hr : orc.rdsSet <;> cases pub <;>
    simp [resetObjectBody, notifyAll, hl, hr] <;> split <;> simp

/-- Claim C3: in the `nk+"_get"` single-flight closure of the read path, a
redis Item that is not expired is written through to the memory tier and
returned; an expired redis Item is returned with the `expired` flag set
and the memory tier (and the rest of the world) untouched; an absent key
invokes `resetObject` (witnessed by the reset flag and by the loader
invocation it performs). -/
theorem C3_theorem (w : World) (key : String) (ttl nowNs : Int) (v : Item)
    (reset : ResetOracle) (pub : PubOutcome) (up : UpdatePolicy) (tn : String) :
    (v.Expired nowNs = false →
      getFlightBody w key ttl nowNs (RedisGetResult.found v) reset pub up tn =
        ⟨{ w with mem := memSet w.mem key v }, ItemResult.ok v, false, false⟩) ∧
    (v.Expired nowNs = true →
      getFlightBody w key ttl nowNs (RedisGetResult.found v) reset pub up tn =
        ⟨w, ItemResult.ok v, true, false⟩) ∧
    ((getFlightBody w key ttl nowNs RedisGetResult.absent reset pub up tn).resetCalled = true ∧
     (getFlightBody w key ttl nowNs RedisGetResult.absent reset pub up tn).w.loaderCalls =
       w.loaderCalls + 1) := by
  refine ⟨fun h => by simp [getFlightBody, h], fun h => by simp [getFlightBody, h], ?_, ?_⟩
  · simp [getFlightBody]
  · simpa [getFlightBody] using resetObjectBody_loaderCalls w key ttl reset pub up nowNs tn

/-- Witness for C3_theorem: a fresh Item is written through, an expired one
is not, and absence triggers the reset path. -/
theorem C3_theorem_witness :
    ((Item.Expired ⟨some 5, 0, 9000⟩ 5000000000 = false ∧
      getFlightBody ⟨[], [], [], 0⟩ "k" 2000000000 5000000000
          (RedisGetResult.found ⟨some 5, 0, 9000⟩)
          ⟨LoadResult.ok (some 1), ItemResult.ok ⟨some 1, 0, 0⟩⟩ PubOutcome.ok
          UpdatePolicy.unset "T" =
        ⟨⟨[("k", ⟨some 5, 0, 9000⟩)], [], [], 0⟩, ItemResult.ok ⟨some 5, 0, 9000⟩,
         false, false⟩) ∧
     (Item.Expired ⟨some 5, 0, 1000⟩ 5000000000 = true ∧
      getFlightBody ⟨[], [], [], 0⟩ "k" 2000000000 5000000000
          (RedisGetResult.found ⟨some 5, 0, 1000⟩)
          ⟨LoadResult.ok (some 1), ItemResult.ok ⟨some 1, 0, 0⟩⟩ PubOutcome.ok
          UpdatePolicy.unset "T" =
        ⟨⟨[], [], [], 0⟩, ItemResult.ok ⟨some 5, 0, 1000⟩, true, false⟩)) ∧
    ((getFlightBody ⟨[], [], [], 0⟩ "k" 2000000000 5000000000 RedisGetResult.absent
        ⟨LoadResult.ok (some 1), ItemResult.ok ⟨some 1, 0, 0⟩⟩ PubOutcome.ok
        UpdatePolicy.unset "T").resetCalled = true ∧
     (getFlightBody ⟨[], [], [], 0⟩ "k" 2000000000 5000000000 RedisGetResult.absent
        ⟨LoadResult.ok (some 1), ItemResult.ok ⟨some 1, 0, 0⟩⟩ PubOutcome.ok
        UpdatePolicy.unset "T").w.loaderCalls = 0 + 1) :=
  ⟨⟨⟨by decide,
     (C3_theorem ⟨[], [], [], 0⟩ "k" 2000000000 5000000000 ⟨some 5, 0, 9000⟩
       ⟨LoadResult.ok (some 1), ItemResult.ok ⟨some 1, 0, 0⟩⟩ PubOutcome.ok
       UpdatePolicy.unset "T").1 (by decide)⟩,
    ⟨by decide,
     (C3_theorem ⟨[], [], [], 0⟩ "k" 2000000000 5000000000 ⟨some 5, 0, 1000⟩
       ⟨LoadResult.ok (some 1), ItemResult.ok ⟨some 1, 0, 0⟩⟩ PubOutcome.ok
       UpdatePolicy.unset "T").2.1 (by decide)⟩⟩,
   (C3_theorem ⟨[], [], [], 0⟩ "k" 2000000000 5000000000 ⟨some 5, 0, 9000⟩
     ⟨LoadResult.ok (some 1), ItemResult.ok ⟨some 1, 0, 0⟩⟩ PubOutcome.ok
     UpdatePolicy.unset "T").2.2⟩

/-- Claim C4: a panicking loader never escapes `resetObject`: the recover
block converts an error panic value into `errors.WithStack` of it — whose
identity (cause) matches the panic value — and any other panic value into
a fresh error whose message is exactly the panic text; the error sink
receives the converted error; no memory write, no redis write and no
broadcast happen; and on the all-miss path `getObject` returns the
converted error to its caller. -/
theorem C4_theorem (w : World) (key : String) (ttl nowNs : Int) (pe : Err)
    (s : String) (rdsSet : ItemResult) (pub : PubOutcome) (up : UpdatePolicy)
    (gp : GetPolicy) (out0 : Obj) (tn : String)
    (hlegal : illegalTTLCheck ttl = false)
    (hmiss : memGet w.mem key = none) :
    (resetObjectBody w key ttl ⟨LoadResult.panicErr pe, rdsSet⟩ pub up nowNs tn =
       ⟨{ w with loaderCalls := w.loaderCalls + 1,
                 errSink := w.errSink ++ [Err.withStack pe] },
        ItemResult.error (Err.withStack pe)⟩ ∧
     Err.cause (Err.withStack pe) = Err.cause pe) ∧
    (resetObjectBody w key ttl ⟨LoadResult.panicStr s, rdsSet⟩ pub up nowNs tn =
       ⟨{ w with loaderCalls := w.loaderCalls + 1,
                 errSink := w.errSink ++ [Err.msgErr s] },
        ItemResult.error (Err.msgErr s)⟩ ∧
     (Err.msgErr s).message = s) ∧
    (getObject w key ttl nowNs gp up out0
        ⟨RedisGetResult.absent, ⟨LoadResult.panicErr pe, rdsSet⟩, pub⟩ tn).ret =
      some (Err.withStack pe) ∧
    (getObject w key ttl nowNs gp up out0
        ⟨RedisGetResult.absent, ⟨LoadResult.panicStr s, rdsSet⟩, pub⟩ tn).ret =
      some (Err.msgErr s) := by
  refine ⟨⟨rfl, rfl⟩, ⟨rfl, rfl⟩, ?_, ?_⟩ <;>
    simp [getObject, hlegal, hmiss, getFlightBody, resetObjectBody, finishGet]

/-- Witness for C4_theorem on an empty world. -/
theorem C4_theorem_witness :
    (illegalTTLCheck 1000000000 = false ∧ memGet ([] : List (String × Item)) "k" = none) ∧
    ((resetObjectBody ⟨[], [], [], 0⟩ "k" 1000000000
        ⟨LoadResult.panicErr (Err.loaderFail 9), ItemResult.ok ⟨none, 0, 0⟩⟩
        PubOutcome.ok UpdatePolicy.unset 0 "T" =
       ⟨⟨[], [], [Err.withStack (Err.loaderFail 9)], 1⟩,
        ItemResult.error (Err.withStack (Err.loaderFail 9))⟩ ∧
      Err.cause (Err.withStack (Err.loaderFail 9)) = Err.cause (Err.loaderFail 9)) ∧
     (resetObjectBody ⟨[], [], [], 0⟩ "k" 1000000000
        ⟨LoadResult.panicStr "boom", ItemResult.ok ⟨none, 0, 0⟩⟩
        PubOutcome.ok UpdatePolicy.unset 0 "T" =
       ⟨⟨[], [], [Err.msgErr "boom"], 1⟩, ItemResult.error (Err.msgErr "boom")⟩ ∧
      (Err.msgErr "boom").message = "boom") ∧
     (getObject ⟨[], [], [], 0⟩ "k" 1000000000 0 GetPolicy.returnExpired UpdatePolicy.unset 3
        ⟨RedisGetResult.absent,
         ⟨LoadResult.panicErr (Err.loaderFail 9), ItemResult.ok ⟨none, 0, 0⟩⟩,
         PubOutcome.ok⟩ "T").ret = some (Err.withStack (Err.loaderFail 9)) ∧
     (getObject ⟨[], [], [], 0⟩ "k" 1000000000 0 GetPolicy.returnExpired UpdatePolicy.unset 3
        ⟨RedisGetResult.absent,
         ⟨LoadResult.panicStr "boom", ItemResult.ok ⟨none, 0, 0⟩⟩,
         PubOutcome.ok⟩ "T").ret = some (Err.msgErr "boom")) :=
  ⟨⟨by decide, by decide⟩,
   C4_theorem ⟨[], [], [], 0⟩ "k" 1000000000 0 (Err.loaderFail 9) "boom"
     (ItemResult.ok ⟨none, 0, 0⟩) PubOutcome.ok UpdatePolicy.unset
     GetPolicy.returnExpired 3 "T" (by decide) (by decide)⟩

/-- Claim C5 (counterexample).  The claim asserts `ExpireAt = now + ttl`
whenever ttl is non-zero; but `newItem` only sets an expiration for
`ttl > 0` (src/item.go:19), so at the non-zero ttl of minus one second
the built Item has `ExpireAt = 0` while the instant `now + ttl` is the
non-zero millisecond timestamp 1000. -/
theorem C5_counterexample :
    ((-1000000000 : Int) ≠ 0) ∧
    (newItem (some 7) (-1000000000) 2000000000).ExpireAt = 0 ∧
    unixMilli (2000000000 + -1000000000) = 1000 := by
  decide

/-- Claim C5 (amended): the Item built by `newItem` carries the given value
and has `ExpireAt = (now + ttl).UnixMilli()` when `ttl > 0` and
`ExpireAt = 0` (never expires) when `ttl ≤ 0` — not merely when
`ttl = 0`; and `Expired()` is true iff `ExpireAt ≠ 0` and `ExpireAt` is
earlier than the current time in milliseconds. -/
theorem C5_theorem (v : Option Obj) (ttl nowNs : Int) (it : Item) :
    ((0 < ttl → (newItem v ttl nowNs).ExpireAt = unixMilli (nowNs + ttl)) ∧
     (ttl ≤ 0 → (newItem v ttl nowNs).ExpireAt = 0) ∧
     (newItem v ttl nowNs).Object = v) ∧
    (it.Expired nowNs = true ↔ (it.ExpireAt ≠ 0 ∧ it.ExpireAt < unixMilli nowNs)) := by
  refine ⟨⟨fun h => by simp [newItem, h], fun h => ?_, rfl⟩, by simp [Item.Expired]⟩
  simp only [newItem]
  have : ¬ (0 < ttl) := by omega
  simp [this]

/-- Witness for C5_theorem at ttl = 3 s and ttl = -1 s. -/
theorem C5_theorem_witness :
    (0 < (3000000000 : Int) ∧
     (newItem (some 7) 3000000000 2000000000).ExpireAt = unixMilli (2000000000 + 3000000000)) ∧
    ((-1000000000 : Int) ≤ 0 ∧
     (newItem (some 7) (-1000000000) 2000000000).ExpireAt = 0) ∧
    (newItem (some 7) 3000000000 2000000000).Object = some 7 ∧
    (Item.Expired ⟨some 7, 0, 1000⟩ 2000000000 = true ↔
      ((1000 : Int) ≠ 0 ∧ (1000 : Int) < unixMilli 2000000000)) :=
  ⟨⟨by decide,
    (C5_theorem (some 7) 3000000000 2000000000 ⟨some 7, 0, 1000⟩).1.1 (by decide)⟩,
   ⟨by decide,
    (C5_theorem (some 7) (-1000000000) 2000000000 ⟨some 7, 0, 1000⟩).1.2.1 (by decide)⟩,
   (C5_theorem (some 7) 3000000000 2000000000 ⟨some 7, 0, 1000⟩).1.2.2,
   (C5_theorem (some 7) 3000000000 2000000000 ⟨some 7, 0, 1000⟩).2⟩

/-- Claim C6: a redis-tier write with memory TTL `mem_ttl` uses the key TTL
`(mem_ttl / 1s) × RedisTTLFactor` seconds; for the TTLs the coordinator
admits (`mem_ttl = 0` or whole positive seconds) and a positive factor,
`mem_ttl = 0` yields a plain `SET` and any other admitted `mem_ttl`
yields `SETEX` with that amplified TTL.  (The TTL computation is
modelled from the spec, see `redisTTLSeconds`; the `SET`/`SETEX` split is
`setString`, src/redis.go:118-131.) -/
theorem C6_theorem (key value : String) (memTTL factor : Int)
    (h0 : 0 ≤ memTTL) (hint : Int.tmod memTTL nsPerSecond = 0)
    (hf : 1 ≤ factor) :
    redisTTLSeconds memTTL factor = Int.tdiv memTTL nsPerSecond * factor ∧
    (memTTL = 0 →
      redisCacheSet key value memTTL factor none =
        (none, some (RedisCmd.plainSet key value))) ∧
    (memTTL ≠ 0 →
      redisCacheSet key value memTTL factor none =
        (none, some (RedisCmd.setex key (Int.tdiv memTTL nsPerSecond * factor) value))) := by
  refine ⟨rfl, fun h => by simp [redisCacheSet, redisTTLSeconds, setString, h], fun h => ?_⟩
  have hdiv : 1 ≤ Int.tdiv memTTL nsPerSecond := by
    have := Int.tmod_add_tdiv memTTL nsPerSecond
    simp only [nsPerSecond] at *
    omega
  have hne : Int.tdiv memTTL nsPerSecond * factor ≠ 0 := by positivity
  simp [redisCacheSet, redisTTLSeconds, setString, hne]

/-- Witness for C6_theorem at mem_ttl = 3 s, factor = 4 (redis TTL 12 s)
and at mem_ttl = 0 (plain SET). -/
theorem C6_theorem_witness :
    (0 ≤ (3000000000 : Int) ∧ Int.tmod (3000000000 : Int) nsPerSecond = 0 ∧
     1 ≤ (4 : Int)) ∧
    ((3000000000 : Int) ≠ 0 ∧
     redisCacheSet "k" "v" 3000000000 4 none =
       (none, some (RedisCmd.setex "k" (Int.tdiv (3000000000 : Int) nsPerSecond * 4) "v"))) ∧
    ((0 : Int) = 0 ∧
     redisCacheSet "k" "v" 0 4 none = (none, some (RedisCmd.plainSet "k" "v"))) :=
  ⟨⟨by decide, by decide, by decide⟩,
   ⟨by decide,
    (C6_theorem ("k") ("v") 3000000000 4 (by decide) (by decide) (by decide)).2.2 (by decide)⟩,
   ⟨rfl,
    (C6_theorem ("k") ("v") 0 4 (by decide) (by decide) (by decide)).2.1 rfl⟩⟩

/-- Claim C7 (counterexample).  The claim asserts that the subscriber loop
continues after dropping a set message with an unregistered TypeName; in
the cited watch loop of src/unnamed/part_020:402-407 the unknown-type
branch executes `return`, terminating the subscriber goroutine instead
of continuing. -/
theorem C7_counterexample :
    watchStepV020 [] ⟨[], [], [], 0⟩ ⟨CacheAction.set, "T", "default:k", 3⟩
        (DecodeOutcome.ok (some 1)) 0 =
      (⟨[], [], [], 0⟩, LoopCtl.stop) ∧
    LoopCtl.stop ≠ LoopCtl.next := by
  decide

/-- Claim C7 (amended): a received set broadcast whose TypeName is not in
the type registry is dropped silently in both subscriber variants — no
memory-tier write and no error-sink call, the whole world is unchanged —
but only the current subscriber (src/cache.go:461-466) continues with the
next message; the older variant (src/unnamed/part_020:402-407) returns,
terminating its receive loop. -/
theorem C7_theorem (types : List (String × TypeReg)) (w : World)
    (tn k : String) (plen : Nat) (decode : DecodeOutcome) (nowNs : Int)
    (hunk : types.find? (fun p => p.1 == tn) = none) :
    watchStep types w ⟨CacheAction.set, tn, k, plen⟩ decode nowNs = (w, LoopCtl.next) ∧
    watchStepV020 types w ⟨CacheAction.set, tn, k, plen⟩ decode nowNs = (w, LoopCtl.stop) := by
  constructor <;> simp [watchStep, watchStepV020, hunk]

/-- Witness for C7_theorem with a registry holding an unrelated type. -/
theorem C7_theorem_witness :
    ([("Other", (⟨some 0, 1000000000⟩ : TypeReg))].find? (fun p => p.1 == "T") = none) ∧
    (watchStep [("Other", ⟨some 0, 1000000000⟩)] ⟨[], [], [], 0⟩
        ⟨CacheAction.set, "T", "default:k", 3⟩ (DecodeOutcome.ok (some 1)) 0 =
      (⟨[], [], [], 0⟩, LoopCtl.next) ∧
     watchStepV020 [("Other", ⟨some 0, 1000000000⟩)] ⟨[], [], [], 0⟩
        ⟨CacheAction.set, "T", "default:k", 3⟩ (DecodeOutcome.ok (some 1)) 0 =
      (⟨[], [], [], 0⟩, LoopCtl.stop)) :=
  ⟨by decide,
   C7_theorem [("Other", ⟨some 0, 1000000000⟩)] ⟨[], [], [], 0⟩ "T" "default:k" 3
     (DecodeOutcome.ok (some 1)) 0 (by decide)⟩

/-- Claim C8: `Delete` deletes the key on the redis tier first; on a redis
error that (stack-wrapped) error is returned and nothing at all changes —
in particular nothing is published; on success the memory tier is still
untouched by `Delete` itself, the call returns nil, and (when the PUBLISH
succeeds) exactly one delete broadcast for the key is appended; the local
memory entry disappears only when the subscriber processes a delete
message. -/
theorem C8_theorem (w : World) (key : String) (e : Err) (pub : PubOutcome)
    (types : List (String × TypeReg)) (msg : ActionMsg)
    (decode : DecodeOutcome) (nowNs : Int)
    (hdel : msg.action = CacheAction.del) :
    (deleteObject w key (some e) pub = (w, some (Err.withStack e))) ∧
    ((deleteObject w key none pub).1.mem = w.mem ∧
     (deleteObject w key none pub).2 = none ∧
     deleteObject w key none PubOutcome.ok =
       ({ w with published :=
            w.published ++ [⟨CacheAction.del, "", key, UpdatePolicy.unset⟩] }, none)) ∧
    (watchStep types w msg decode nowNs =
       ({ w with mem := memDelete w.mem msg.key }, LoopCtl.next)) := by
  obtain ⟨a, tn2, k2, plen⟩ := msg
  cases hdel
  refine ⟨rfl, ⟨?_, ?_, rfl⟩, rfl⟩ <;> cases pub <;> rfl

/-- Witness for C8_theorem on a world holding the key in memory. -/
theorem C8_theorem_witness :
    (deleteObject ⟨[("n:k", ⟨some 5, 0, 0⟩)], [], [], 0⟩ "n:k"
        (some (Err.redisFail 3)) PubOutcome.ok =
      (⟨[("n:k", ⟨some 5, 0, 0⟩)], [], [], 0⟩,
       some (Err.withStack (Err.redisFail 3)))) ∧
    ((deleteObject ⟨[("n:k", ⟨some 5, 0, 0⟩)], [], [], 0⟩ "n:k" none PubOutcome.ok).1.mem =
       [("n:k", ⟨some 5, 0, 0⟩)] ∧
     (deleteObject ⟨[("n:k", ⟨some 5, 0, 0⟩)], [], [], 0⟩ "n:k" none PubOutcome.ok).2 = none ∧
     deleteObject ⟨[("n:k", ⟨some 5, 0, 0⟩)], [], [], 0⟩ "n:k" none PubOutcome.ok =
       (⟨[("n:k", ⟨some 5, 0, 0⟩)],
         [⟨CacheAction.del, "", "n:k", UpdatePolicy.unset⟩], [], 0⟩, none)) ∧
    (watchStep [] ⟨[("n:k", ⟨some 5, 0, 0⟩)], [], [], 0⟩
        ⟨CacheAction.del, "", "n:k", 0⟩ (DecodeOutcome.ok none) 0 =
      (⟨[], [], [], 0⟩, LoopCtl.next)) :=
  C8_theorem ⟨[("n:k", ⟨some 5, 0, 0⟩)], [], [], 0⟩ "n:k" (Err.redisFail 3)
    PubOutcome.ok [] ⟨CacheAction.del, "", "n:k", 0⟩ (DecodeOutcome.ok none) 0 rfl

/-- Claim C10: in the coordinator's final deep-copy step, a deep copy that
yields an invalid reflect value (the cached object is Go nil) leaves the
caller's destination completely unchanged and still reports a nil error,
so a `getObject` hit on such an Item returns success without writing to
the destination. -/
theorem C10_theorem (w : World) (key : String) (ttl nowNs : Int)
    (gp : GetPolicy) (up : UpdatePolicy) (out0 : Obj) (orc : GetOracle)
    (tn : String) (it : Item)
    (httl : illegalTTLCheck ttl = false)
    (hhit : memGet w.mem key = some it)
    (hnil : it.Object = none)
    (hfresh : it.Expired nowNs = false) :
    cacheCopy none out0 = (out0, none) ∧
    getObject w key ttl nowNs gp up out0 orc tn = ⟨w, none, out0, false, false⟩ := by
  refine ⟨rfl, ?_⟩
  simp [getObject, httl, hhit, finishGet, hfresh, cacheCopy, hnil]

/-- Witness for C10_theorem: a fresh memory hit whose Item holds nil. -/
theorem C10_theorem_witness :
    (illegalTTLCheck 0 = false ∧
     memGet [("n:k", (⟨none, 0, 0⟩ : Item))] "n:k" = some ⟨none, 0, 0⟩ ∧
     Item.Object ⟨none, 0, 0⟩ = none ∧
     Item.Expired ⟨none, 0, 0⟩ 5 = false) ∧
    (cacheCopy none 42 = (42, none) ∧
     getObject ⟨[("n:k", ⟨none, 0, 0⟩)], [], [], 0⟩ "n:k" 0 5 GetPolicy.returnExpired
        UpdatePolicy.unset 42
        ⟨RedisGetResult.absent, ⟨LoadResult.ok (some 1), ItemResult.ok ⟨some 1, 0, 0⟩⟩,
         PubOutcome.ok⟩ "T" =
       ⟨⟨[("n:k", ⟨none, 0, 0⟩)], [], [], 0⟩, none, 42, false, false⟩) :=
  ⟨⟨by decide, by decide, by decide, by decide⟩,
   C10_theorem ⟨[("n:k", ⟨none, 0, 0⟩)], [], [], 0⟩ "n:k" 0 5 GetPolicy.returnExpired
     UpdatePolicy.unset 42
     ⟨RedisGetResult.absent, ⟨LoadResult.ok (some 1), ItemResult.ok ⟨some 1, 0, 0⟩⟩,
      PubOutcome.ok⟩ "T" ⟨none, 0, 0⟩ (by decide) (by decide) (by decide) (by decide)⟩
